import Mathlib

/-!
Verification development for the tokuSolutions PDF-translation pipeline.

The Python sources under `src/` are embedded shallowly: every activity and
workflow becomes a pure Lean function over an explicit environment that
records the outcomes of the external calls (Document AI, the translation
API, the site renderer, the three cleanup sub-services, the product
search).  The durable-execution engine (retry driver, signal dispatch,
condition wait) is not part of the repository; those primitives are
modelled from the spec's contracts and marked as such in their doc
comments.
-/

/-! ## Python string helpers (`str.strip`, character classes) -/

/-- Whitespace recognised by Python `str.strip()`, restricted to the
whitespace characters that can occur in this pipeline's OCR text
(ASCII whitespace, no-break space, ideographic space). -/
def pyIsSpace (c : Char) : Bool :=
  c == ' ' || c == '\t' || c == '\n' || c == '\r' ||
  c == Char.ofNat 11 || c == Char.ofNat 12 ||
  c == Char.ofNat 0xA0 || c == Char.ofNat 0x3000

/-- `str.strip()` on a character list: drop leading and trailing whitespace. -/
def pyStripList (cs : List Char) : List Char :=
  ((cs.dropWhile pyIsSpace).reverse.dropWhile pyIsSpace).reverse

/-- `str.strip()` on a string. -/
def pyStrip (s : String) : String :=
  String.mk (pyStripList s.data)

/-- Python `\d` for the digits occurring in this pipeline's text:
ASCII digits and fullwidth digits. -/
def pyIsDigit (c : Char) : Bool :=
  c.isDigit || (0xFF10 ≤ c.toNat && c.toNat ≤ 0xFF19)

/-- Circled numbers ①..⑳ (U+2460..U+2473), the class of the first skip rule. -/
def isCircled20 (c : Char) : Bool :=
  0x2460 ≤ c.toNat && c.toNat ≤ 0x2473

/-- Circled numbers ①..⑩ (U+2460..U+2469), the class of the third skip rule. -/
def isCircled10 (c : Char) : Bool :=
  0x2460 ≤ c.toNat && c.toNat ≤ 0x2469

/-- The lone punctuation / symbol class `[・•\-●○■□★☆※→←↑↓↔▲▼◆◇]`. -/
def isLonePunct (c : Char) : Bool :=
  c == '・' || c == '•' || c == '-' || c == '●' || c == '○' ||
  c == '■' || c == '□' || c == '★' || c == '☆' || c == '※' ||
  c == '→' || c == '←' || c == '↑' || c == '↓' || c == '↔' ||
  c == '▲' || c == '▼' || c == '◆' || c == '◇'

/-- The optional closing punctuation class `[\.\)）:：]` of the third skip rule. -/
def isClosePunct (c : Char) : Bool :=
  c == '.' || c == ')' || c == '）' || c == ':' || c == '：'

/-- Copyright/trademark symbol class `[©®™]`. -/
def isCopyrightSym (c : Char) : Bool :=
  c == '©' || c == '®' || c == '™'

/-- Match for `^[\d①…⑩]+[\.\)）:：]?$`: a nonempty run of digits or circled
numbers up to ⑩ followed by at most one closing punctuation character. -/
def matchNumThenPunct (cs : List Char) : Bool :=
  let ds := cs.takeWhile (fun c => pyIsDigit c || isCircled10 c)
  let rest := cs.drop ds.length
  !ds.isEmpty &&
    (rest.isEmpty || (rest.length == 1 && rest.all isClosePunct))

/-! ## `_should_skip_block` (src/src/activities/ocr.py) -/

/-- Embedding of `_should_skip_block`: skip empty text, digit/circled-number
only text, lone punctuation, a number with optional closing punctuation,
copyright symbols alone, a single Latin letter, or a 1–4 character
all-uppercase word. -/
def shouldSkipBlock (s : String) : Bool :=
  let t := pyStripList s.data
  if t.isEmpty then true
  else if t.all (fun c => pyIsDigit c || isCircled20 c) then true
  else if t.all isLonePunct then true
  else if matchNumThenPunct t then true
  else if t.all isCopyrightSym then true
  else if t.length == 1 && t.all Char.isAlpha then true
  else if 1 ≤ t.length && t.length ≤ 4 && t.all (fun c => 'A' ≤ c && c ≤ 'Z') then true
  else false

/-! ## OCR data model (src/src/activities/ocr.py) -/

/-- A block of text with its position (dataclass `TextBlock`). -/
structure TextBlock where
  text : String
  page : Nat
  x : Rat
  y : Rat
  width : Rat
  height : Rat
  confidence : Rat
  deriving DecidableEq, Repr

/-- Result from OCR on a single page (dataclass `PageOCRResult`). -/
structure PageOCRResult where
  page_num : Nat
  blocks : List TextBlock
  success : Bool
  error : Option String := none
  deriving DecidableEq, Repr

/-- A normalized vertex of a Document AI bounding polygon. -/
structure RawVertex where
  x : Rat
  y : Rat
  deriving DecidableEq, Repr

/-- A raw block as returned by Document AI for one page: the bounding
polygon's normalized vertices, the anchored text, and the layout
confidence. -/
structure RawBlock where
  vertices : List RawVertex
  text : String
  confidence : Rat
  deriving DecidableEq, Repr

/-- Outcome of the Document AI call for one page: either the raw block
list of the processed document, or an exception message (any failure in
rendering, credential loading, or the remote call). -/
inductive DocAIResponse where
  | ok (blocks : List RawBlock)
  | err (msg : String)
  deriving DecidableEq, Repr

/-- Embedding of `ocr_page_activity`: on a successful Document AI response
keep each raw block with at least four vertices whose stripped text is
nonempty and not skipped, stamping it with the page number and the
geometry derived from vertices 0 and 2; on an exception return a failed
page result carrying the message. -/
def ocr_page_activity (docai : Nat → DocAIResponse) (page_num : Nat) : PageOCRResult :=
  match docai page_num with
  | .err m => { page_num := page_num, blocks := [], success := false, error := some m }
  | .ok raws =>
    let blocks := raws.filterMap (fun rb =>
      match rb.vertices with
      | v0 :: _ :: v2 :: _ :: _ =>
        if pyStrip rb.text ≠ "" && !shouldSkipBlock rb.text then
          some { text := pyStrip rb.text
                 page := page_num
                 x := v0.x
                 y := v0.y
                 width := v2.x - v0.x
                 height := v2.y - v0.y
                 confidence := rb.confidence }
        else none
      | _ => none)
    { page_num := page_num, blocks := blocks, success := true }

/-! ## OCR workflow (src/src/workflows/ocr_workflow.py) -/

/-- The dictionary returned by `search_product_url_activity`, restricted to
the keys the OCR workflow reads. -/
structure SearchResult where
  success : Bool
  url : String
  name : String
  description : String
  blog_url : String
  deriving DecidableEq, Repr

/-- The dictionary form of a text block built by the OCR workflow
(confidence is dropped). -/
structure BlockDict where
  text : String
  page : Nat
  x : Rat
  y : Rat
  width : Rat
  height : Rat
  deriving DecidableEq, Repr

/-- Output from the OCR workflow (dataclass `OCROutput`). -/
structure OCROutput where
  blocks : List BlockDict
  page_count : Nat
  product_url : String
  product_name : String
  product_description : String
  blog_url : String
  success : Bool
  error : Option String := none
  deriving DecidableEq, Repr

/-- `TextBlock` to dict conversion performed in the OCR workflow's
collection loop. -/
def blockToDict (b : TextBlock) : BlockDict :=
  { text := b.text, page := b.page, x := b.x, y := b.y,
    width := b.width, height := b.height }

/-- The collection loop of `OCRWorkflow.run`: successful page results
contribute their blocks (as dicts, in order); failed page results
contribute their page number to `failed_pages`. -/
def collectBlocks : List PageOCRResult → List BlockDict × List Nat
  | [] => ([], [])
  | r :: rest =>
    let p := collectBlocks rest
    if r.success then (r.blocks.map blockToDict ++ p.1, p.2)
    else (p.1, r.page_num :: p.2)

/-- Environment of one OCR workflow run: the product-search outcome, the
page count reported by `get_pdf_page_count_activity`, and the Document AI
outcome for each page index. -/
structure OCREnv where
  search : SearchResult
  page_count : Nat
  docai : Nat → DocAIResponse

/-- The fan-out of `OCRWorkflow.run`: one `ocr_page_activity` task per page
index in `range page_count`, results in task-issue order (the contract of
`asyncio.gather`). -/
def ocrPageResults (env : OCREnv) : List PageOCRResult :=
  (List.range env.page_count).map (ocr_page_activity env.docai)

/-- A run of the OCR workflow: its `OCROutput` plus the failed-page list
that the workflow logs as a warning (`"OCR failed on pages: ..."`) when
it is nonempty. -/
structure OCRRun where
  output : OCROutput
  warned_failed_pages : List Nat
  deriving Repr

/-- Embedding of `OCRWorkflow.run`: read the product-search fields if the
search succeeded, fan out one OCR task per page, collect blocks and
failed pages, and report failure with error `"No text blocks found"`
exactly when no block survived. -/
def OCRWorkflow.run (env : OCREnv) : OCRRun :=
  let s := env.search
  let product_url := if s.success then s.url else ""
  let product_name := if s.success then s.name else ""
  let product_description := if s.success then s.description else ""
  let blog_url := if s.success then s.blog_url else ""
  let page_results := ocrPageResults env
  let collected := collectBlocks page_results
  let all_blocks := collected.1
  let failed_pages := collected.2
  if all_blocks.isEmpty then
    { output := { blocks := [], page_count := env.page_count,
                  product_url := product_url, product_name := product_name,
                  product_description := product_description,
                  blog_url := blog_url, success := false,
                  error := some "No text blocks found" }
      warned_failed_pages := failed_pages }
  else
    { output := { blocks := all_blocks, page_count := env.page_count,
                  product_url := product_url, product_name := product_name,
                  product_description := product_description,
                  blog_url := blog_url, success := true }
      warned_failed_pages := failed_pages }

/-! ## Fan-in join (`asyncio.gather`) -/

/-- Modelled from the spec: the fan-in join of the durable engine.  Tasks
settle in an arbitrary completion order, each delivering its result
tagged with its task index; the join reads the slots back in task-issue
order, `none` standing for a task that has not settled. -/
def gatherJoin {α : Type} (completions : List (Nat × α)) (n : Nat) : List (Option α) :=
  (List.range n).map (fun i => (completions.find? (fun q => q.1 == i)).map Prod.snd)

/-! ## Translation workflow (src/src/workflows/translation_workflow.py,
src/src/activities/translation.py) -/

/-- A text block with translation (dataclass `TranslatedBlock`). -/
structure TranslatedBlock where
  original : String
  translated : String
  page : Nat
  x : Rat
  y : Rat
  width : Rat
  height : Rat
  deriving DecidableEq, Repr

/-- Result from translating OCR blocks (dataclass `TranslationResult`). -/
structure TranslationResult where
  blocks : List TranslatedBlock
  success : Bool
  error : Option String := none
  deriving DecidableEq, Repr

/-- The dictionary form of a translated block built by the translation
workflow. -/
structure TransDict where
  original : String
  translated : String
  page : Nat
  x : Rat
  y : Rat
  width : Rat
  height : Rat
  deriving DecidableEq, Repr

/-- Output from the translation workflow (dataclass `TranslationOutput`). -/
structure TranslationOutput where
  translated_blocks : List TransDict
  success : Bool
  error : Option String := none
  deriving DecidableEq, Repr

/-- `TranslatedBlock` to dict conversion performed in the translation
workflow. -/
def transToDict (b : TranslatedBlock) : TransDict :=
  { original := b.original, translated := b.translated, page := b.page,
    x := b.x, y := b.y, width := b.width, height := b.height }

/-- Embedding of `TranslationWorkflow.run`: run the (environment-supplied)
`translate_blocks_activity` outcome on the input blocks; on failure
return an empty block list with the activity's error, on success the
dict forms of the translated blocks. -/
def TranslationWorkflow.run (activityResult : List BlockDict → TranslationResult)
    (blocks : List BlockDict) : TranslationOutput :=
  let result := activityResult blocks
  if !result.success then
    { translated_blocks := [], success := false, error := result.error }
  else
    { translated_blocks := result.blocks.map transToDict, success := true }

/-! ## Site generation workflow (src/src/workflows/site_generation_workflow.py) -/

/-- Result of `generate_site_activity` (the fields the workflow reads). -/
structure SiteActResult where
  json_path : String
  html_path : String
  page_count : Nat
  block_count : Nat
  success : Bool
  error : Option String := none
  deriving DecidableEq, Repr

/-- Output from the site generation workflow (dataclass
`SiteGenerationOutput`). -/
structure SiteGenerationOutput where
  json_path : String
  html_path : String
  page_count : Nat
  block_count : Nat
  success : Bool
  error : Option String := none
  deriving DecidableEq, Repr

/-- Embedding of `SiteGenerationWorkflow.run`: on activity failure return
empty paths and zero counts with the activity's error; on success pass
the activity's fields through. -/
def SiteGenerationWorkflow.run (result : SiteActResult) : SiteGenerationOutput :=
  if !result.success then
    { json_path := "", html_path := "", page_count := 0, block_count := 0,
      success := false, error := result.error }
  else
    { json_path := result.json_path, html_path := result.html_path,
      page_count := result.page_count, block_count := result.block_count,
      success := true }

/-! ## Cleanup workflow (src/src/workflows/cleanup_workflow.py,
src/src/activities/cleanup.py) -/

/-- The dict returned by `ftfy_cleanup_activity`: `success`, `fixes`, and
an error message when the stage raised. -/
structure FtfyResult where
  success : Bool
  fixes : Nat
  error : Option String := none
  deriving DecidableEq, Repr

/-- The dict returned by `rule_based_cleanup_activity`. -/
structure RulesResult where
  success : Bool
  removals : Nat
  error : Option String := none
  deriving DecidableEq, Repr

/-- The dict returned by `gemini_cleanup_activity`. -/
structure GeminiResult where
  success : Bool
  corrections : Nat
  corrected_product_name : Option String := none
  tags : Option (List String) := none
  error : Option String := none
  deriving DecidableEq, Repr

/-- Input for the cleanup workflow (dataclass `CleanupInput`). -/
structure CleanupInput where
  json_path : String
  product_name : String
  product_description : String
  skip_gemini : Bool := false
  deriving DecidableEq, Repr

/-- Output from the cleanup workflow (dataclass `CleanupOutput`). -/
structure CleanupOutput where
  ftfy_fixes : Nat
  rule_removals : Nat
  gemini_corrections : Nat
  corrected_product_name : Option String
  tags : Option (List String)
  success : Bool
  error : Option String := none
  deriving DecidableEq, Repr

/-- Environment of one cleanup workflow run: the settled outcome of each
of the three sub-stage activities (each activity catches its own
exceptions, so retry exhaustion surfaces as the final attempt's failure
dict). -/
structure CleanupEnv where
  ftfy : FtfyResult
  rules : RulesResult
  gemini : GeminiResult

/-- A run of the cleanup workflow: its `CleanupOutput` plus the list of
warning messages the workflow logs for failed sub-stages. -/
structure CleanupRun where
  output : CleanupOutput
  warnings : List String
  deriving Repr

/-- Embedding of `CleanupWorkflow.run`: each sub-stage's counter is taken
from its result only on success and is 0 on failure; a failed stage logs
a warning carrying its error; Gemini's error (and only Gemini's) is also
stored in the output's `error` field; the output's `success` is the
constant `true`. -/
def CleanupWorkflow.run (env : CleanupEnv) (input : CleanupInput) : CleanupRun :=
  let ftfy_fixes := if env.ftfy.success then env.ftfy.fixes else 0
  let ftfy_warn : List String :=
    if env.ftfy.success then [] else [(env.ftfy.error).getD "None"]
  let rule_removals := if env.rules.success then env.rules.removals else 0
  let rules_warn : List String :=
    if env.rules.success then [] else [(env.rules.error).getD "None"]
  let geminiPart : Nat × Option String × Option (List String) × Option String × List String :=
    if input.skip_gemini then (0, none, none, none, [])
    else if env.gemini.success then
      (env.gemini.corrections, env.gemini.corrected_product_name,
       env.gemini.tags, none, [])
    else
      let e := (env.gemini.error).getD "Unknown error"
      (0, none, none, some e, [e])
  { output := { ftfy_fixes := ftfy_fixes
                rule_removals := rule_removals
                gemini_corrections := geminiPart.1
                corrected_product_name := geminiPart.2.1
                tags := geminiPart.2.2.1
                success := true
                error := geminiPart.2.2.2.1 }
    warnings := ftfy_warn ++ rules_warn ++ geminiPart.2.2.2.2 }

/-! ## Parent pipeline (src/src/workflows/pdf_translation_workflow.py) -/

/-- Input for the PDF translation workflow (dataclass
`PDFTranslationInput`). -/
structure PDFTranslationInput where
  pdf_path : String
  manual_name : String
  output_dir : String
  source_language : String := "ja"
  target_language : String := "en"
  skip_cleanup : Bool := false
  deriving DecidableEq, Repr

/-- Output from the PDF translation workflow (dataclass
`PDFTranslationOutput`). -/
structure PDFTranslationOutput where
  input_path : String
  output_dir : String
  json_path : String
  html_path : String
  ocr_blocks : Nat
  translated_blocks : Nat
  product_url : String
  product_name : String
  success : Bool
  error : Option String := none
  deriving DecidableEq, Repr

/-- Progress state for queries (dataclass `WorkflowProgress`). -/
structure WorkflowProgress where
  phase : String
  ocr_progress : String := ""
  translation_progress : String := ""
  site_progress : String := ""
  cleanup_progress : String := ""
  pages_total : Nat := 0
  blocks_total : Nat := 0
  product_url : String := ""
  product_name : String := ""
  manual_name : String := ""
  waiting_for_url : Bool := false
  deriving DecidableEq, Repr

/-- The mutable attributes of a `PDFTranslationWorkflow` instance:
`self._progress`, `self._user_provided_url`, `self._waiting_for_url`. -/
structure PipeState where
  progress : WorkflowProgress
  user_provided_url : String := ""
  waiting_for_url : Bool := false
  deriving DecidableEq, Repr

/-- Embedding of the `provide_url` signal handler: store the URL, clear
both waiting flags. -/
def provide_url (st : PipeState) (url : String) : PipeState :=
  { st with user_provided_url := url
            waiting_for_url := false
            progress := { st.progress with waiting_for_url := false } }

/-- How a suspension ended: a signal made the wait condition true, or the
30-minute timer fired first. -/
inductive ResumeKind where
  | bySignal
  | byTimeout
  deriving DecidableEq, Repr

/-- Modelled from the spec: the engine's condition wait
(`workflow.wait_condition(fun => !waiting, timeout := 30 minutes)`).
The argument list holds the signals delivered inside the 30-minute
window, in order; each is handled by `provide_url`, and the wait returns
as soon as the condition `waiting_for_url = false` holds.  If the list
is exhausted the timer fires and the wait returns with the state
unchanged (the spec's timeout fallback: resume, treating the URL as
unresolved). -/
def waitForUrl : List String → PipeState → PipeState × ResumeKind
  | [], st => (st, ResumeKind.byTimeout)
  | u :: rest, st =>
    let st2 := provide_url st u
    if st2.waiting_for_url then waitForUrl rest st2
    else (st2, ResumeKind.bySignal)

/-- One observable step of the orchestrator: invocation of a child
workflow, entry into the suspension wait (with the state at that
moment), or resumption from it. -/
inductive PipeStep where
  | invokeChild (name : String)
  | enterWait (st : PipeState)
  | resume (kind : ResumeKind) (st : PipeState)
  deriving DecidableEq, Repr

/-- Environment of one pipeline run: the OCR environment, the signals
handled before the orchestrator reaches the wait point (delivered while
the OCR child is awaited), the signals delivered inside the 30-minute
wait window, the signals delivered after resumption, and the settled
outcomes of the translation, site-generation, and cleanup calls. -/
structure PipelineEnv where
  ocrEnv : OCREnv
  preSignals : List String := []
  waitSignals : List String := []
  postSignals : List String := []
  translateAct : List BlockDict → TranslationResult
  siteAct : SiteActResult
  cleanupEnv : CleanupEnv

/-- A run of the parent workflow: terminal output, the trace of child
invocations and suspension steps in program order, and the final
instance state. -/
structure PipelineRun where
  output : PDFTranslationOutput
  trace : List PipeStep
  finalState : PipeState

/-- Python `x or y` on strings: `y` when `x` is empty, else `x`. -/
def pyOrStr (a b : String) : String := if a = "" then b else a

/-- Embedding of `PDFTranslationWorkflow.run`.  Phases run strictly in
order; a failed OCR/translation/site output returns immediately with
`"<Phase> failed: <error>"`; if the OCR output carries no product URL the
orchestrator sets the waiting flags, enters the condition wait, and on
resumption takes `self._user_provided_url` as the final URL; cleanup (when
not skipped) never fails and its corrected name, when non-empty, replaces
the OCR product name. -/
def PDFTranslationWorkflow.run (input : PDFTranslationInput) (env : PipelineEnv) :
    PipelineRun :=
  let st0 : PipeState := { progress := { phase := "initializing" } }
  let st1 : PipeState :=
    { st0 with progress := { st0.progress with
        phase := "ocr", ocr_progress := "Starting OCR workflow..." } }
  let ocrRun := OCRWorkflow.run env.ocrEnv
  let ocr := ocrRun.output
  let st2 := env.preSignals.foldl provide_url st1
  if !ocr.success then
    { output := { input_path := input.pdf_path, output_dir := "",
                  json_path := "", html_path := "", ocr_blocks := 0,
                  translated_blocks := 0, product_url := "",
                  product_name := "", success := false,
                  error := some ("OCR failed: " ++ (ocr.error).getD "None") }
      trace := [PipeStep.invokeChild "ocr"]
      finalState := env.postSignals.foldl provide_url st2 }
  else
    let nblocks := ocr.blocks.length
    let st3 : PipeState :=
      { st2 with progress := { st2.progress with
          pages_total := ocr.page_count
          blocks_total := nblocks
          product_url := ocr.product_url
          product_name := ocr.product_name
          manual_name := input.manual_name
          ocr_progress := "Complete: " ++ toString nblocks ++ " blocks from "
            ++ toString ocr.page_count ++ " pages" } }
    let waited :=
      if ocr.product_url = "" then
        let st4 : PipeState :=
          { st3 with waiting_for_url := true
                     progress := { st3.progress with
                       waiting_for_url := true
                       ocr_progress := "Complete - Waiting for product URL..." } }
        let w := waitForUrl env.waitSignals st4
        let final_url := w.1.user_provided_url
        let st6 : PipeState :=
          { w.1 with progress := { w.1.progress with product_url := final_url } }
        (st6, final_url, [PipeStep.enterWait st4, PipeStep.resume w.2 st6])
      else (st3, ocr.product_url, ([] : List PipeStep))
    let st6 := waited.1
    let final_url := waited.2.1
    let waitTrace := waited.2.2
    let st7 : PipeState :=
      { st6 with progress := { st6.progress with
          phase := "translation"
          translation_progress := "Translating " ++ toString nblocks ++ " blocks..." } }
    let translation := TranslationWorkflow.run env.translateAct ocr.blocks
    if !translation.success then
      { output := { input_path := input.pdf_path, output_dir := "",
                    json_path := "", html_path := "",
                    ocr_blocks := nblocks, translated_blocks := 0,
                    product_url := ocr.product_url,
                    product_name := ocr.product_name, success := false,
                    error := some ("Translation failed: "
                      ++ (translation.error).getD "None") }
        trace := [PipeStep.invokeChild "ocr"] ++ waitTrace
          ++ [PipeStep.invokeChild "translation"]
        finalState := env.postSignals.foldl provide_url st7 }
    else
      let ntrans := translation.translated_blocks.length
      let st8 : PipeState :=
        { st7 with progress := { st7.progress with
            translation_progress := "Complete: " ++ toString ntrans ++ " blocks" } }
      let st9 : PipeState :=
        { st8 with progress := { st8.progress with
            phase := "site_generation"
            site_progress := "Generating web viewer..." } }
      let site := SiteGenerationWorkflow.run env.siteAct
      if !site.success then
        { output := { input_path := input.pdf_path, output_dir := "",
                      json_path := "", html_path := "",
                      ocr_blocks := nblocks, translated_blocks := ntrans,
                      product_url := ocr.product_url,
                      product_name := ocr.product_name, success := false,
                      error := some ("Site generation failed: "
                        ++ (site.error).getD "None") }
          trace := [PipeStep.invokeChild "ocr"] ++ waitTrace
            ++ [PipeStep.invokeChild "translation", PipeStep.invokeChild "site_generation"]
          finalState := env.postSignals.foldl provide_url st9 }
      else
        let st10 : PipeState :=
          { st9 with progress := { st9.progress with
              site_progress := "Complete: " ++ toString site.page_count ++ " pages" } }
        let cleaned :=
          if !input.skip_cleanup then
            let st11 : PipeState :=
              { st10 with progress := { st10.progress with
                  phase := "cleanup"
                  cleanup_progress := "Running 3-stage cleanup..." } }
            let cleanupRun := CleanupWorkflow.run env.cleanupEnv
              { json_path := site.json_path
                product_name := ocr.product_name
                product_description := ocr.product_description
                skip_gemini := false }
            let c := cleanupRun.output
            let st12 : PipeState :=
              { st11 with progress := { st11.progress with
                  cleanup_progress := "Complete: " ++ toString c.ftfy_fixes
                    ++ " ftfy, " ++ toString c.rule_removals ++ " rules, "
                    ++ toString c.gemini_corrections ++ " AI corrections" } }
            (st12, pyOrStr ((c.corrected_product_name).getD "") ocr.product_name,
             [PipeStep.invokeChild "cleanup"])
          else
            let st11 : PipeState :=
              { st10 with progress := { st10.progress with
                  cleanup_progress := "Skipped" } }
            (st11, ocr.product_name, ([] : List PipeStep))
        let st13 : PipeState :=
          { cleaned.1 with progress := { cleaned.1.progress with phase := "complete" } }
        { output := { input_path := input.pdf_path
                      output_dir := input.output_dir
                      json_path := site.json_path
                      html_path := site.html_path
                      ocr_blocks := nblocks
                      translated_blocks := ntrans
                      product_url := final_url
                      product_name := cleaned.2.1
                      success := true }
          trace := [PipeStep.invokeChild "ocr"] ++ waitTrace
            ++ [PipeStep.invokeChild "translation", PipeStep.invokeChild "site_generation"]
            ++ cleaned.2.2
          finalState := env.postSignals.foldl provide_url st13 }

/-! ## Retry policy engine (parameters: src/src/workflows/ocr_workflow.py) -/

/-- A retry policy tuple (the `RetryPolicy` instances declared in the
workflows).  Intervals are in whole seconds; the backoff coefficient of
the instances used here is the integer 2 (declared in the source as the
float `2.0`). -/
structure RetryPolicy where
  initial_interval : Nat
  maximum_interval : Nat
  maximum_attempts : Nat
  backoff_coefficient : Nat
  deriving DecidableEq, Repr

/-- The *remote-api* policy `API_RETRY`: initial 2s, max 30s, 5 attempts,
coefficient 2.0. -/
def API_RETRY : RetryPolicy :=
  { initial_interval := 2, maximum_interval := 30,
    maximum_attempts := 5, backoff_coefficient := 2 }

/-- Modelled from the spec: the wait the retry engine inserts after the
failure of attempt `k` (0-indexed) and before attempt `k + 1`:
`min(initialInterval * backoffCoefficient ^ k, maxInterval)`. -/
def backoffWait (p : RetryPolicy) (k : Nat) : Nat :=
  min (p.initial_interval * p.backoff_coefficient ^ k) p.maximum_interval

/-- Modelled from the spec: the retry engine's loop, driven by a fuel
counter holding the number of attempts still allowed.  `attempt k` is the
outcome of the (0-indexed) `k`-th attempt; the loop returns the first
success or the last allowed attempt's failure, together with the list of
waits inserted between consecutive attempts. -/
def retryFrom {α : Type} (p : RetryPolicy) (attempt : Nat → Except String α) :
    Nat → Nat → Except String α × List Nat
  | _, 0 => (Except.error "no attempts permitted", [])
  | k, 1 => (attempt k, [])
  | k, n + 2 =>
    match attempt k with
    | Except.ok a => (Except.ok a, [])
    | Except.error _ =>
      let rec2 := retryFrom p attempt (k + 1) (n + 1)
      (rec2.1, backoffWait p k :: rec2.2)

/-- Modelled from the spec: execute a call under a retry policy, starting
from attempt 0 with `maximum_attempts` attempts allowed. -/
def invokeWithRetry {α : Type} (p : RetryPolicy) (attempt : Nat → Except String α) :
    Except String α × List Nat :=
  retryFrom p attempt 0 p.maximum_attempts

/-- The realized wait sequence of a run under a retry policy. -/
def waitSequence {α : Type} (p : RetryPolicy) (attempt : Nat → Except String α) :
    List Nat :=
  (invokeWithRetry p attempt).2

/-! ## Concrete sample environments (used to instantiate the theorems) -/

/-- A product search that found nothing. -/
def sampleSearchFail : SearchResult :=
  { success := false, url := "", name := "", description := "", blog_url := "" }

/-- A product search that found a product. -/
def sampleSearchOk : SearchResult :=
  { success := true, url := "https://tokullectibles.com/p", name := "CSM DenGasher",
    description := "A henshin belt.", blog_url := "https://blog.example/1" }

/-- A raw Document AI block covering the whole page. -/
def sampleRawBlock (t : String) : RawBlock :=
  { vertices := [⟨0, 0⟩, ⟨1, 0⟩, ⟨1, 1⟩, ⟨0, 1⟩], text := t, confidence := 1 }

/-- Document AI failing on every page. -/
def docaiAllFail : Nat → DocAIResponse := fun _ => DocAIResponse.err "render failed"

/-- Document AI failing on page 1 of 3, succeeding elsewhere with one
kept and one skipped block. -/
def docaiSample : Nat → DocAIResponse := fun p =>
  if p = 1 then DocAIResponse.err "boom"
  else DocAIResponse.ok [sampleRawBlock ("hello page " ++ toString p), sampleRawBlock "123"]

/-- OCR environment: no product found, one page, Document AI fails. -/
def envAllFail : OCREnv :=
  { search := sampleSearchFail, page_count := 1, docai := docaiAllFail }

/-- OCR environment: no product found, three pages, one page fails. -/
def envOkPages : OCREnv :=
  { search := sampleSearchFail, page_count := 3, docai := docaiSample }

/-- OCR environment: product found, but all OCR pages fail. -/
def envSearchOkFail : OCREnv :=
  { search := sampleSearchOk, page_count := 1, docai := docaiAllFail }

/-- OCR environment: product found, three pages, one page fails. -/
def envSearchOkPages : OCREnv :=
  { search := sampleSearchOk, page_count := 3, docai := docaiSample }

/-- A translation activity outcome that succeeds on every block. -/
def sampleTranslateOk : List BlockDict → TranslationResult := fun bs =>
  { blocks := bs.map (fun b =>
      { original := b.text, translated := "T:" ++ b.text, page := b.page,
        x := b.x, y := b.y, width := b.width, height := b.height })
    success := true }

/-- A translation activity outcome that fails. -/
def sampleTranslateFail : List BlockDict → TranslationResult := fun _ =>
  { blocks := [], success := false, error := some "quota exceeded" }

/-- A successful site-generation activity outcome. -/
def sampleSiteOk : SiteActResult :=
  { json_path := "out/translations.json", html_path := "out/index.html",
    page_count := 3, block_count := 2, success := true }

/-- A failed site-generation activity outcome. -/
def sampleSiteFail : SiteActResult :=
  { json_path := "", html_path := "", page_count := 0, block_count := 0,
    success := false, error := some "render error" }

/-- Cleanup environment: all three sub-stages succeed. -/
def sampleCleanupOk : CleanupEnv :=
  { ftfy := { success := true, fixes := 4 }
    rules := { success := true, removals := 1 }
    gemini := { success := true, corrections := 2,
                corrected_product_name := some "CSM DenGasher Official",
                tags := some ["csm"] } }

/-- Cleanup environment: Gemini validation fails, the rest succeed. -/
def sampleCleanupGeminiFail : CleanupEnv :=
  { ftfy := { success := true, fixes := 4 }
    rules := { success := true, removals := 1 }
    gemini := { success := false, corrections := 0,
                error := some "validation failed" } }

/-- Cleanup environment: every sub-stage fails (counters carry junk the
workflow must ignore). -/
def sampleCleanupAllFail : CleanupEnv :=
  { ftfy := { success := false, fixes := 3, error := some "ftfy io error" }
    rules := { success := false, removals := 2, error := some "rules io error" }
    gemini := { success := false, corrections := 5,
                error := some "validation failed" } }

/-- A pipeline environment where the product URL is missing and the user
answers by signal during the wait. -/
def samplePipelineEnv : PipelineEnv :=
  { ocrEnv := envOkPages
    waitSignals := ["https://user.example/p"]
    translateAct := sampleTranslateOk
    siteAct := sampleSiteOk
    cleanupEnv := sampleCleanupGeminiFail }

/-- A pipeline environment where the signal arrives while the OCR child is
still being awaited (before the orchestrator reaches the wait point) and
no further signal arrives inside the 30-minute window. -/
def earlySignalEnv : PipelineEnv :=
  { ocrEnv := envOkPages
    preSignals := ["https://example.com/p"]
    waitSignals := []
    translateAct := sampleTranslateOk
    siteAct := sampleSiteOk
    cleanupEnv := sampleCleanupOk }

/-- The standard job input used by the sample runs. -/
def sampleInput : PDFTranslationInput :=
  { pdf_path := "m.pdf", manual_name := "CSM Test", output_dir := "out" }

/-- The block that survives the filter on page 0 of `docaiSample`. -/
def sampleKeptBlock : TextBlock :=
  { text := "hello page 0", page := 0, x := 0, y := 0, width := 1 - 0,
    height := 1 - 0, confidence := 1 }

/-- The product URL a run resolves: when OCR found none, the first signal
of the wait window, else the last signal delivered before the wait point,
else the empty string; when OCR found one, that URL. -/
def resolvedFinalUrl (penv : PipelineEnv) : String :=
  if (OCRWorkflow.run penv.ocrEnv).output.product_url = "" then
    match penv.waitSignals with
    | u :: _ => u
    | [] => (penv.preSignals.getLast?).getD ""
  else (OCRWorkflow.run penv.ocrEnv).output.product_url

/-- The projection of a trace step to a resumption kind, `none` for
non-resumption steps. -/
def resumeKindOf : PipeStep → Option ResumeKind
  | PipeStep.resume k _ => some k
  | _ => none

/-- A canonical tag for each trace step: the invoked child's name,
`"wait"` for suspension entry, `"resume"` for resumption. -/
def stepTag : PipeStep → String
  | PipeStep.invokeChild n => n
  | PipeStep.enterWait _ => "wait"
  | PipeStep.resume _ _ => "resume"

/-- The child workflows invoked along a trace, in order. -/
def childNames (t : List PipeStep) : List String :=
  t.filterMap (fun s =>
    match s with
    | PipeStep.invokeChild n => some n
    | _ => none)

/-! ## Helper lemmas -/

theorem pyStripList_eq_rdrop (cs : List Char) :
    pyStripList cs = List.rdropWhile pyIsSpace (cs.dropWhile pyIsSpace) := rfl

theorem pyStripList_idem (cs : List Char) :
    pyStripList (pyStripList cs) = pyStripList cs := by
  rw [pyStripList_eq_rdrop, pyStripList_eq_rdrop]
  have h1 : List.dropWhile pyIsSpace
      (List.rdropWhile pyIsSpace (cs.dropWhile pyIsSpace))
      = List.rdropWhile pyIsSpace (cs.dropWhile pyIsSpace) := by
    rw [List.dropWhile_eq_self_iff]
    intro hl
    have hpre := List.rdropWhile_prefix pyIsSpace (cs.dropWhile pyIsSpace)
    have hx : 0 < (cs.dropWhile pyIsSpace).length :=
      lt_of_lt_of_le hl hpre.length_le
    have hg := hpre.getElem hl
    simp only [List.get_eq_getElem, hg]
    have := List.dropWhile_get_zero_not pyIsSpace cs hx
    simpa using this
  rw [h1, List.rdropWhile_idempotent]

theorem pyStrip_idem (s : String) : pyStrip (pyStrip s) = pyStrip s := by
  simp [pyStrip, pyStripList_idem]

theorem shouldSkipBlock_pyStrip (s : String) :
    shouldSkipBlock (pyStrip s) = shouldSkipBlock s := by
  simp [shouldSkipBlock, pyStrip, pyStripList_idem]

/-- Every block a successful page OCR emits is stamped with the page
number, has nonempty already-stripped text, and is not skipped by the
filter. -/
theorem mem_blocks_ocr_page (docai : Nat → DocAIResponse) (p : Nat) (b : TextBlock)
    (hb : b ∈ (ocr_page_activity docai p).blocks) :
    b.page = p ∧ b.text ≠ "" ∧ pyStrip b.text = b.text ∧
      shouldSkipBlock b.text = false := by
  unfold ocr_page_activity at hb
  cases hd : docai p with
  | err m => rw [hd] at hb; simp at hb
  | ok raws =>
    rw [hd] at hb
    simp only [List.mem_filterMap] at hb
    obtain ⟨rb, -, hrb⟩ := hb
    cases hv : rb.vertices with
    | nil => rw [hv] at hrb; simp at hrb
    | cons v0 t0 =>
      cases t0 with
      | nil => rw [hv] at hrb; simp at hrb
      | cons v1 t1 =>
        cases t1 with
        | nil => rw [hv] at hrb; simp at hrb
        | cons v2 t2 =>
          cases t2 with
          | nil => rw [hv] at hrb; simp at hrb
          | cons v3 t3 =>
            rw [hv] at hrb
            simp only at hrb
            by_cases hc : pyStrip rb.text ≠ "" && !shouldSkipBlock rb.text
            · rw [if_pos hc] at hrb
              simp only [Option.some.injEq] at hrb
              obtain ⟨hne, hsk⟩ := by simpa using hc
              subst hrb
              refine ⟨rfl, hne, pyStrip_idem rb.text, ?_⟩
              rw [shouldSkipBlock_pyStrip]
              exact hsk
            · rw [if_neg hc] at hrb; simp at hrb

theorem ocr_page_activity_page_num (docai : Nat → DocAIResponse) (p : Nat) :
    (ocr_page_activity docai p).page_num = p := by
  unfold ocr_page_activity
  cases docai p <;> rfl

theorem ocr_page_activity_fail_blocks (docai : Nat → DocAIResponse) (p : Nat)
    (h : (ocr_page_activity docai p).success = false) :
    (ocr_page_activity docai p).blocks = [] := by
  unfold ocr_page_activity at h ⊢
  cases hd : docai p with
  | err m => rfl
  | ok raws => rw [hd] at h; simp at h

/-- Blocks collected from a per-index result list: the succeeded indices
keep their blocks (as dicts) in list order. -/
theorem collectBlocks_map_fst (f : Nat → PageOCRResult) (l : List Nat) :
    (collectBlocks (l.map f)).1
      = (l.filter fun p => (f p).success).flatMap
          (fun p => (f p).blocks.map blockToDict) := by
  induction l with
  | nil => rfl
  | cons a l ih =>
    by_cases h : (f a).success
    · simp [collectBlocks, List.filter_cons, h, ih]
    · simp [collectBlocks, List.filter_cons, h, ih]

/-- Failed pages collected from a per-index result list: the failed
indices' recorded page numbers, in list order. -/
theorem collectBlocks_map_snd (f : Nat → PageOCRResult) (l : List Nat) :
    (collectBlocks (l.map f)).2
      = (l.filter fun p => !(f p).success).map (fun p => (f p).page_num) := by
  induction l with
  | nil => rfl
  | cons a l ih =>
    by_cases h : (f a).success
    · simp [collectBlocks, List.filter_cons, h, ih]
    · simp [collectBlocks, List.filter_cons, h, ih]

/-- Concatenating per-index block groups along a strictly increasing index
list, where each group is uniformly stamped with its index, yields a
list whose pages are weakly increasing. -/
theorem pairwise_pages_bind (l : List Nat) (g : Nat → List BlockDict)
    (hl : l.Pairwise (· < ·)) (hg : ∀ p ∈ l, ∀ b ∈ g p, b.page = p) :
    (l.flatMap g).Pairwise (fun a b => a.page ≤ b.page) := by
  induction l with
  | nil => simp
  | cons a l ih =>
    rw [List.pairwise_cons] at hl
    rw [List.flatMap_cons, List.pairwise_append]
    refine ⟨?_, ?_, ?_⟩
    · apply List.pairwise_of_forall_mem_list
      intro x hx y hy
      rw [hg a (List.mem_cons_self a l) x hx, hg a (List.mem_cons_self a l) y hy]
    · exact ih hl.2 (fun p hp => hg p (List.mem_cons_of_mem a hp))
    · intro x hx y hy
      rw [List.mem_flatMap] at hy
      obtain ⟨p, hp, hyp⟩ := hy
      rw [hg a (List.mem_cons_self a l) x hx,
        hg p (List.mem_cons_of_mem a hp) y hyp]
      exact Nat.le_of_lt (hl.1 p hp)

/-- Looking up key `i` among index-tagged results finds that index's
result, no matter the order the results settled in. -/
theorem find?_map_keyed {α : Type} (res : Nat → α) (i : Nat) :
    ∀ sched : List Nat, i ∈ sched →
      (sched.map (fun j => (j, res j))).find? (fun q => q.1 == i)
        = some (i, res i) := by
  intro sched
  induction sched with
  | nil => intro h; exact absurd h (List.not_mem_nil i)
  | cons j rest ih =>
    intro h
    by_cases hj : j = i
    · subst hj; simp [List.find?]
    · have hi : i ∈ rest := by
        rcases List.mem_cons.mp h with h1 | h1
        · exact absurd h1.symm hj
        · exact h1
      simp only [List.map_cons, List.find?]
      have : ((j, res j).1 == i) = false := by
        simp [hj]
      rw [this]
      exact ih hi

/-- Signal folding preserves the progress phase. -/
theorem foldl_provide_url_phase (sigs : List String) (st : PipeState) :
    (sigs.foldl provide_url st).progress.phase = st.progress.phase := by
  induction sigs generalizing st with
  | nil => rfl
  | cons u rest ih => simp [List.foldl_cons, ih, provide_url]

/-- Signal folding leaves the last delivered URL in
`user_provided_url` (or the prior value when no signal was delivered). -/
theorem foldl_provide_url_user (sigs : List String) (st : PipeState) :
    (sigs.foldl provide_url st).user_provided_url
      = (sigs.getLast?).getD st.user_provided_url := by
  induction sigs generalizing st with
  | nil => rfl
  | cons u rest ih =>
    cases rest with
    | nil => simp [provide_url]
    | cons v rest2 =>
      rw [List.foldl_cons, ih, List.getLast?_cons_cons]
      rfl

theorem waitForUrl_nil (st : PipeState) :
    waitForUrl [] st = (st, ResumeKind.byTimeout) := rfl

/-- The first signal delivered during the wait immediately resumes it:
the handler clears the waiting flag, so the condition holds. -/
theorem waitForUrl_cons (u : String) (rest : List String) (st : PipeState) :
    waitForUrl (u :: rest) st = (provide_url st u, ResumeKind.bySignal) := by
  simp [waitForUrl, provide_url]

/-- Any text falling in one of the six skip categories is skipped. -/
theorem shouldSkipBlock_of_category (s : String)
    (hcat :
      (pyStripList s.data).all (fun c => pyIsDigit c || isCircled20 c) = true ∨
      (pyStripList s.data).all isLonePunct = true ∨
      matchNumThenPunct (pyStripList s.data) = true ∨
      (pyStripList s.data).all isCopyrightSym = true ∨
      ((pyStripList s.data).length == 1 && (pyStripList s.data).all Char.isAlpha) = true ∨
      (1 ≤ (pyStripList s.data).length && (pyStripList s.data).length ≤ 4 &&
        (pyStripList s.data).all (fun c => 'A' ≤ c && c ≤ 'Z')) = true) :
    shouldSkipBlock s = true := by
  simp only [shouldSkipBlock]
  split_ifs with h1 h2 h3 h4 h5 h6 h7
  · rfl
  · rfl
  · rfl
  · rfl
  · rfl
  · rfl
  · rfl
  · rcases hcat with h | h | h | h | h | h
    · exact absurd h h2
    · exact absurd h h3
    · exact absurd h h4
    · exact absurd h h5
    · exact absurd h h6
    · exact absurd h h7

/-- Every block in the aggregated OCR output comes from a succeeded page
activity, which produced it. -/
theorem mem_ocr_run_blocks (env : OCREnv) (b : BlockDict)
    (hb : b ∈ (OCRWorkflow.run env).output.blocks) :
    ∃ p, p < env.page_count ∧ (ocr_page_activity env.docai p).success = true ∧
      ∃ tb ∈ (ocr_page_activity env.docai p).blocks, b = blockToDict tb := by
  simp only [OCRWorkflow.run] at hb
  split at hb
  · simp at hb
  · simp only [ocrPageResults, collectBlocks_map_fst, List.mem_flatMap] at hb
    obtain ⟨p, hp, hbp⟩ := hb
    rw [List.mem_filter] at hp
    rw [List.mem_map] at hbp
    obtain ⟨tb, htb, hbe⟩ := hbp
    exact ⟨p, List.mem_range.mp hp.1, hp.2, tb, htb, hbe.symm⟩

/-! ## Claim theorems -/

/-- C10: every successfully OCR'd page result contains only blocks whose
trimmed text is non-empty and not skipped by the filter; text in any of
the listed categories (digits/circled numbers only, listed
punctuation/symbols only, a number with optional closing punctuation,
copyright/trademark symbols only, a single Latin letter, a 1–4 character
all-uppercase word) is skipped and hence excluded, and no skipped text
ever reaches the aggregated block list handed to Translation. -/
theorem C10_skip_filter (docai : Nat → DocAIResponse) (p : Nat) (env : OCREnv) :
    (∀ b ∈ (ocr_page_activity docai p).blocks,
        b.text ≠ "" ∧ pyStrip b.text = b.text ∧ shouldSkipBlock b.text = false)
    ∧ (∀ s : String,
        ((pyStripList s.data).all (fun c => pyIsDigit c || isCircled20 c) = true ∨
         (pyStripList s.data).all isLonePunct = true ∨
         matchNumThenPunct (pyStripList s.data) = true ∨
         (pyStripList s.data).all isCopyrightSym = true ∨
         ((pyStripList s.data).length == 1 && (pyStripList s.data).all Char.isAlpha) = true ∨
         (1 ≤ (pyStripList s.data).length && (pyStripList s.data).length ≤ 4 &&
           (pyStripList s.data).all (fun c => 'A' ≤ c && c ≤ 'Z')) = true) →
        ∀ b ∈ (ocr_page_activity docai p).blocks, b.text ≠ s)
    ∧ (∀ b ∈ (OCRWorkflow.run env).output.blocks, shouldSkipBlock b.text = false) := by
  refine ⟨?_, ?_, ?_⟩
  · intro b hb
    obtain ⟨-, h2, h3, h4⟩ := mem_blocks_ocr_page docai p b hb
    exact ⟨h2, h3, h4⟩
  · intro s hcat b hb he
    obtain ⟨-, -, -, h4⟩ := mem_blocks_ocr_page docai p b hb
    rw [he] at h4
    rw [shouldSkipBlock_of_category s hcat] at h4
    simp at h4
  · intro b hb
    obtain ⟨q, -, -, tb, htb, hbe⟩ := mem_ocr_run_blocks env b hb
    obtain ⟨-, -, -, h4⟩ := mem_blocks_ocr_page env.docai q tb htb
    rw [hbe]
    exact h4

theorem ocr_run_of_empty (env : OCREnv)
    (h : (collectBlocks (ocrPageResults env)).1 = []) :
    (OCRWorkflow.run env).output.success = false ∧
    (OCRWorkflow.run env).output.error = some "No text blocks found" ∧
    (OCRWorkflow.run env).output.blocks = [] := by
  simp only [OCRWorkflow.run, h]
  simp

theorem ocr_run_of_nonempty (env : OCREnv)
    (h : (collectBlocks (ocrPageResults env)).1 ≠ []) :
    (OCRWorkflow.run env).output.success = true ∧
    (OCRWorkflow.run env).output.error = none ∧
    (OCRWorkflow.run env).output.blocks = (collectBlocks (ocrPageResults env)).1 := by
  simp only [OCRWorkflow.run]
  rw [if_neg (by simpa using h)]
  simp

theorem ocr_run_warned (env : OCREnv) :
    (OCRWorkflow.run env).warned_failed_pages
      = (List.range env.page_count).filter
          (fun p => !(ocr_page_activity env.docai p).success) := by
  have hw : (OCRWorkflow.run env).warned_failed_pages
      = (collectBlocks (ocrPageResults env)).2 := by
    simp only [OCRWorkflow.run]
    split <;> rfl
  rw [hw, ocrPageResults, collectBlocks_map_snd]
  rw [List.map_congr_left (fun p _ => ocr_page_activity_page_num env.docai p)]
  simp

theorem parent_ocr_fail (input : PDFTranslationInput) (penv : PipelineEnv)
    (h : (OCRWorkflow.run penv.ocrEnv).output.success = false) :
    (PDFTranslationWorkflow.run input penv).output.success = false ∧
    (PDFTranslationWorkflow.run input penv).output.error
      = some ("OCR failed: "
          ++ ((OCRWorkflow.run penv.ocrEnv).output.error).getD "None") ∧
    (PDFTranslationWorkflow.run input penv).trace = [PipeStep.invokeChild "ocr"] ∧
    (PDFTranslationWorkflow.run input penv).finalState.progress.phase = "ocr" := by
  simp only [PDFTranslationWorkflow.run, h]
  simp [foldl_provide_url_phase]

/-- C1: the OCR phase output is unsuccessful, with error
`"No text blocks found"` (and the job then terminates at phase `ocr` with
that error), exactly when the aggregated block list is empty; with at
least one surviving block the phase succeeds even when pages failed, the
failed page indices appear in the warning list, and never among the pages
of the aggregated blocks. -/
theorem C1_ocr_error_policy (input : PDFTranslationInput) (penv : PipelineEnv) :
    ((OCRWorkflow.run penv.ocrEnv).output.success = false ∧
        (OCRWorkflow.run penv.ocrEnv).output.error = some "No text blocks found"
      ↔ (OCRWorkflow.run penv.ocrEnv).output.blocks = [])
    ∧ ((OCRWorkflow.run penv.ocrEnv).output.blocks ≠ [] →
        (OCRWorkflow.run penv.ocrEnv).output.success = true ∧
        (OCRWorkflow.run penv.ocrEnv).output.error = none)
    ∧ (OCRWorkflow.run penv.ocrEnv).warned_failed_pages
        = (List.range penv.ocrEnv.page_count).filter
            (fun p => !(ocr_page_activity penv.ocrEnv.docai p).success)
    ∧ (∀ p ∈ (OCRWorkflow.run penv.ocrEnv).warned_failed_pages,
        ∀ b ∈ (OCRWorkflow.run penv.ocrEnv).output.blocks, b.page ≠ p)
    ∧ ((OCRWorkflow.run penv.ocrEnv).output.blocks = [] →
        (PDFTranslationWorkflow.run input penv).output.success = false ∧
        (PDFTranslationWorkflow.run input penv).output.error
          = some "OCR failed: No text blocks found" ∧
        (PDFTranslationWorkflow.run input penv).finalState.progress.phase = "ocr" ∧
        (PDFTranslationWorkflow.run input penv).trace = [PipeStep.invokeChild "ocr"]) := by
  have hfp : ∀ p ∈ (OCRWorkflow.run penv.ocrEnv).warned_failed_pages,
      ∀ b ∈ (OCRWorkflow.run penv.ocrEnv).output.blocks, b.page ≠ p := by
    intro p hp b hb
    rw [ocr_run_warned, List.mem_filter] at hp
    obtain ⟨q, -, hq, tb, htb, hbe⟩ := mem_ocr_run_blocks penv.ocrEnv b hb
    obtain ⟨hqp, -, -, -⟩ := mem_blocks_ocr_page penv.ocrEnv.docai q tb htb
    intro hcontra
    rw [hbe] at hcontra
    have : tb.page = p := hcontra
    rw [hqp] at this
    rw [this] at hq
    rw [hq] at hp
    simp at hp
  by_cases hemp : (collectBlocks (ocrPageResults penv.ocrEnv)).1 = []
  · obtain ⟨h1, h2, h3⟩ := ocr_run_of_empty penv.ocrEnv hemp
    refine ⟨⟨fun _ => h3, fun _ => ⟨h1, h2⟩⟩, fun hne => absurd h3 hne,
      ocr_run_warned penv.ocrEnv, hfp, fun _ => ?_⟩
    obtain ⟨j1, j2, j3, j4⟩ := parent_ocr_fail input penv h1
    rw [h2] at j2
    exact ⟨j1, j2, j4, j3⟩
  · obtain ⟨h1, h2, h3⟩ := ocr_run_of_nonempty penv.ocrEnv hemp
    refine ⟨⟨fun hc => ?_, fun hb => ?_⟩, fun _ => ⟨h1, h2⟩,
      ocr_run_warned penv.ocrEnv, hfp, fun hb => ?_⟩
    · rw [h1] at hc; simp at hc
    · rw [h3] at hb; exact absurd hb hemp
    · rw [h3] at hb; exact absurd hb hemp

/-- C1 witness: with Document AI failing on the single page, the block
list is empty and the job terminates with the fixed OCR error. -/
theorem C1_witness :
    (OCRWorkflow.run envAllFail).output.blocks = [] ∧
    (PDFTranslationWorkflow.run sampleInput
        { samplePipelineEnv with ocrEnv := envAllFail }).output.error
      = some "OCR failed: No text blocks found" := by
  have h := C1_ocr_error_policy sampleInput { samplePipelineEnv with ocrEnv := envAllFail }
  exact ⟨by decide, (h.2.2.2.2 (by decide)).2.1⟩

/-- C10 witness: on the sample page, text `"123"` is in the digit category
and the surviving block's text differs from it. -/
theorem C10_witness : sampleKeptBlock.text ≠ "123" := by
  have hmem : sampleKeptBlock ∈ (ocr_page_activity docaiSample 0).blocks := by
    rw [show (ocr_page_activity docaiSample 0).blocks = [sampleKeptBlock] from rfl]
    exact List.mem_singleton_self _
  exact (C10_skip_filter docaiSample 0 envOkPages).2.1 "123" (Or.inl (by decide)) _ hmem

/-- C2: the fan-out issues exactly `page_count` page tasks; joining the
settled results of any completion order reconstructs the task-order
result list; aggregated block pages lie in `[0, page_count)`; and the
aggregate is the concatenation of the succeeded pages' blocks in
ascending page-index order. -/
theorem C2_fanout_fanin (env : OCREnv) (sched : List Nat)
    (hperm : sched.Perm (List.range env.page_count)) :
    (ocrPageResults env).length = env.page_count
    ∧ gatherJoin (sched.map (fun i => (i, ocr_page_activity env.docai i)))
        env.page_count = (ocrPageResults env).map some
    ∧ (∀ b ∈ (OCRWorkflow.run env).output.blocks, b.page < env.page_count)
    ∧ (collectBlocks (ocrPageResults env)).1
        = ((List.range env.page_count).filter
            (fun p => (ocr_page_activity env.docai p).success)).flatMap
            (fun p => (ocr_page_activity env.docai p).blocks.map blockToDict)
    ∧ ((collectBlocks (ocrPageResults env)).1).Pairwise
        (fun a b => a.page ≤ b.page) := by
  refine ⟨by simp [ocrPageResults], ?_, ?_, ?_, ?_⟩
  · unfold gatherJoin ocrPageResults
    rw [List.map_map]
    apply List.map_congr_left
    intro i hi
    have hs : i ∈ sched := hperm.mem_iff.mpr hi
    rw [find?_map_keyed (fun j => ocr_page_activity env.docai j) i sched hs]
    rfl
  · intro b hb
    obtain ⟨q, hq, -, tb, htb, hbe⟩ := mem_ocr_run_blocks env b hb
    obtain ⟨hqp, -, -, -⟩ := mem_blocks_ocr_page env.docai q tb htb
    rw [hbe]
    show tb.page < env.page_count
    rw [hqp]
    exact hq
  · exact collectBlocks_map_fst (ocr_page_activity env.docai) (List.range env.page_count)
  · have h4 : (collectBlocks (ocrPageResults env)).1
        = ((List.range env.page_count).filter
            (fun p => (ocr_page_activity env.docai p).success)).flatMap
            (fun p => (ocr_page_activity env.docai p).blocks.map blockToDict) :=
      collectBlocks_map_fst (ocr_page_activity env.docai) (List.range env.page_count)
    rw [h4]
    apply pairwise_pages_bind
    · exact (List.pairwise_lt_range env.page_count).filter _
    · intro p hp b hbp
      rw [List.mem_map] at hbp
      obtain ⟨tb, htb, hbe⟩ := hbp
      obtain ⟨hqp, -, -, -⟩ := mem_blocks_ocr_page env.docai p tb htb
      rw [← hbe]
      exact hqp

/-- C2 witness: a three-page fan-out with completion order 2, 0, 1 joins
back to the task-order result list. -/
theorem C2_witness :
    gatherJoin ([2, 0, 1].map (fun i => (i, ocr_page_activity envOkPages.docai i))) 3
      = (ocrPageResults envOkPages).map some :=
  (C2_fanout_fanin envOkPages [2, 0, 1] (by decide)).2.1

theorem retryFrom_error {α : Type} (p : RetryPolicy) (attempt : Nat → Except String α)
    (k n : Nat) (e : String) (h : attempt k = Except.error e) :
    retryFrom p attempt k (n + 2)
      = ((retryFrom p attempt (k + 1) (n + 1)).1,
         backoffWait p k :: (retryFrom p attempt (k + 1) (n + 1)).2) := by
  simp only [retryFrom, h]

/-- C7 counterexample: under `API_RETRY` (5 attempts) a persistently
failing call realizes the wait sequence `[2, 4, 8, 16]`, not
`[2, 4, 8, 16, 30]`: with five total attempts only four waits occur and
the 30-second cap is never reached. -/
theorem C7_counterexample :
    waitSequence API_RETRY
        (fun _ => (Except.error "service unavailable" : Except String Unit))
      = [2, 4, 8, 16] ∧
    ¬ (waitSequence API_RETRY
        (fun _ => (Except.error "service unavailable" : Except String Unit))
      = [2, 4, 8, 16, 30]) := by
  constructor
  · rfl
  · intro h
    rw [show waitSequence API_RETRY
        (fun _ => (Except.error "service unavailable" : Except String Unit))
      = [2, 4, 8, 16] from rfl] at h
    simp at h

/-- C7 amended: the wait inserted after the failure of attempt `k`
(0-indexed) and before attempt `k + 1` is `min(2 * 2 ^ k, 30)` seconds;
with 5 maximum attempts a persistently failing call realizes waits
`2s, 4s, 8s, 16s` (the 30s cap would only apply from a sixth attempt on)
and the fifth attempt's failure is returned as the terminal error. -/
theorem C7_amended {α : Type} (attempt : Nat → Except String α)
    (hfail : ∀ k, ∃ e, attempt k = Except.error e) :
    (∀ k, backoffWait API_RETRY k = min (2 * 2 ^ k) 30)
    ∧ waitSequence API_RETRY attempt = [2, 4, 8, 16]
    ∧ (invokeWithRetry API_RETRY attempt).1 = attempt 4 := by
  obtain ⟨e0, h0⟩ := hfail 0
  obtain ⟨e1, h1⟩ := hfail 1
  obtain ⟨e2, h2⟩ := hfail 2
  obtain ⟨e3, h3⟩ := hfail 3
  have hrun : invokeWithRetry API_RETRY attempt = (attempt 4, [2, 4, 8, 16]) := by
    show retryFrom API_RETRY attempt 0 5 = _
    rw [retryFrom_error API_RETRY attempt 0 3 e0 h0,
      retryFrom_error API_RETRY attempt 1 2 e1 h1,
      retryFrom_error API_RETRY attempt 2 1 e2 h2,
      retryFrom_error API_RETRY attempt 3 0 e3 h3,
      show retryFrom API_RETRY attempt 4 1 = (attempt 4, []) from rfl]
    rfl
  refine ⟨fun k => rfl, ?_, ?_⟩
  · show (invokeWithRetry API_RETRY attempt).2 = _
    rw [hrun]
  · rw [hrun]

/-- C7 witness: a call failing with `"boom"` on every attempt realizes
exactly the four waits. -/
theorem C7_witness :
    waitSequence API_RETRY (fun _ => (Except.error "boom" : Except String Nat))
      = [2, 4, 8, 16] :=
  (C7_amended (fun _ => (Except.error "boom" : Except String Nat))
    (fun _ => ⟨"boom", rfl⟩)).2.1

/-- C4: the cleanup workflow output always has `success = true`; a failed
sub-stage contributes a zero counter, its error appears among the run's
warnings (and, for Gemini, in the output's `error` field only as a
warning payload), and the job's overall success field does not depend on
the cleanup environment at all. -/
theorem C4_cleanup_absorbs_failures (cenv : CleanupEnv) (input : CleanupInput)
    (inputP : PDFTranslationInput) (penv : PipelineEnv) (c2 : CleanupEnv) :
    (CleanupWorkflow.run cenv input).output.success = true
    ∧ (cenv.ftfy.success = false →
        (CleanupWorkflow.run cenv input).output.ftfy_fixes = 0 ∧
        ((cenv.ftfy.error).getD "None") ∈ (CleanupWorkflow.run cenv input).warnings)
    ∧ (cenv.rules.success = false →
        (CleanupWorkflow.run cenv input).output.rule_removals = 0 ∧
        ((cenv.rules.error).getD "None") ∈ (CleanupWorkflow.run cenv input).warnings)
    ∧ (input.skip_gemini = false → cenv.gemini.success = false →
        (CleanupWorkflow.run cenv input).output.gemini_corrections = 0 ∧
        (CleanupWorkflow.run cenv input).output.corrected_product_name = none ∧
        (CleanupWorkflow.run cenv input).output.tags = none ∧
        ((cenv.gemini.error).getD "Unknown error")
          ∈ (CleanupWorkflow.run cenv input).warnings ∧
        (CleanupWorkflow.run cenv input).output.error
          = some ((cenv.gemini.error).getD "Unknown error"))
    ∧ (PDFTranslationWorkflow.run inputP
          { penv with cleanupEnv := cenv }).output.success
        = (PDFTranslationWorkflow.run inputP
          { penv with cleanupEnv := c2 }).output.success := by
  refine ⟨?_, ?_, ?_, ?_, ?_⟩
  · simp [CleanupWorkflow.run]
  · intro hf
    simp [CleanupWorkflow.run, hf]
  · intro hr
    simp [CleanupWorkflow.run, hr]
  · intro hs hg
    simp [CleanupWorkflow.run, hs, hg]
  · by_cases h1 : (OCRWorkflow.run penv.ocrEnv).output.success
    · by_cases h2 : (TranslationWorkflow.run penv.translateAct
          (OCRWorkflow.run penv.ocrEnv).output.blocks).success
      · by_cases h3 : (SiteGenerationWorkflow.run penv.siteAct).success
        · simp [PDFTranslationWorkflow.run, h1, h2, h3]
        · simp only [Bool.not_eq_true] at h3
          simp [PDFTranslationWorkflow.run, h1, h2, h3]
      · simp only [Bool.not_eq_true] at h2
        simp [PDFTranslationWorkflow.run, h1, h2]
    · simp only [Bool.not_eq_true] at h1
      simp [PDFTranslationWorkflow.run, h1]

/-- C4 witness: with every sub-stage failing, the cleanup output still
succeeds, with zero counters and the stage errors as warnings. -/
theorem C4_witness :
    (CleanupWorkflow.run sampleCleanupAllFail
        { json_path := "out/translations.json", product_name := "CSM DenGasher",
          product_description := "", skip_gemini := false }).output.success = true ∧
    (CleanupWorkflow.run sampleCleanupAllFail
        { json_path := "out/translations.json", product_name := "CSM DenGasher",
          product_description := "", skip_gemini := false }).output.ftfy_fixes = 0 ∧
    (PDFTranslationWorkflow.run sampleInput
        { samplePipelineEnv with cleanupEnv := sampleCleanupAllFail }).output.success
      = (PDFTranslationWorkflow.run sampleInput
        { samplePipelineEnv with cleanupEnv := sampleCleanupOk }).output.success := by
  have h := C4_cleanup_absorbs_failures sampleCleanupAllFail
    { json_path := "out/translations.json", product_name := "CSM DenGasher",
      product_description := "", skip_gemini := false }
    sampleInput samplePipelineEnv sampleCleanupOk
  exact ⟨h.1, (h.2.1 (by decide)).1, h.2.2.2.2⟩

theorem foldl_provide_url_cleanup_progress (sigs : List String) (st : PipeState) :
    (sigs.foldl provide_url st).progress.cleanup_progress
      = st.progress.cleanup_progress := by
  induction sigs generalizing st with
  | nil => rfl
  | cons u rest ih => simp [List.foldl_cons, ih, provide_url]

theorem parent_translation_fail (input : PDFTranslationInput) (penv : PipelineEnv)
    (h1 : (OCRWorkflow.run penv.ocrEnv).output.success = true)
    (h2 : (TranslationWorkflow.run penv.translateAct
        (OCRWorkflow.run penv.ocrEnv).output.blocks).success = false) :
    (PDFTranslationWorkflow.run input penv).output.success = false ∧
    (PDFTranslationWorkflow.run input penv).output.error
      = some ("Translation failed: "
          ++ ((TranslationWorkflow.run penv.translateAct
              (OCRWorkflow.run penv.ocrEnv).output.blocks).error).getD "None") ∧
    (PDFTranslationWorkflow.run input penv).output.ocr_blocks
      = (OCRWorkflow.run penv.ocrEnv).output.blocks.length ∧
    (PDFTranslationWorkflow.run input penv).output.translated_blocks = 0 ∧
    (PDFTranslationWorkflow.run input penv).output.product_url
      = (OCRWorkflow.run penv.ocrEnv).output.product_url ∧
    (PDFTranslationWorkflow.run input penv).output.product_name
      = (OCRWorkflow.run penv.ocrEnv).output.product_name ∧
    childNames (PDFTranslationWorkflow.run input penv).trace = ["ocr", "translation"] := by
  by_cases hurl : (OCRWorkflow.run penv.ocrEnv).output.product_url = "" <;>
    simp [PDFTranslationWorkflow.run, h1, h2, hurl, childNames]

theorem parent_site_fail (input : PDFTranslationInput) (penv : PipelineEnv)
    (h1 : (OCRWorkflow.run penv.ocrEnv).output.success = true)
    (h2 : (TranslationWorkflow.run penv.translateAct
        (OCRWorkflow.run penv.ocrEnv).output.blocks).success = true)
    (h3 : (SiteGenerationWorkflow.run penv.siteAct).success = false) :
    (PDFTranslationWorkflow.run input penv).output.success = false ∧
    (PDFTranslationWorkflow.run input penv).output.error
      = some ("Site generation failed: "
          ++ ((SiteGenerationWorkflow.run penv.siteAct).error).getD "None") ∧
    (PDFTranslationWorkflow.run input penv).output.ocr_blocks
      = (OCRWorkflow.run penv.ocrEnv).output.blocks.length ∧
    (PDFTranslationWorkflow.run input penv).output.translated_blocks
      = (TranslationWorkflow.run penv.translateAct
          (OCRWorkflow.run penv.ocrEnv).output.blocks).translated_blocks.length ∧
    childNames (PDFTranslationWorkflow.run input penv).trace
      = ["ocr", "translation", "site_generation"] := by
  by_cases hurl : (OCRWorkflow.run penv.ocrEnv).output.product_url = "" <;>
    simp [PDFTranslationWorkflow.run, h1, h2, h3, hurl, childNames]

theorem parent_all_success (input : PDFTranslationInput) (penv : PipelineEnv)
    (h1 : (OCRWorkflow.run penv.ocrEnv).output.success = true)
    (h2 : (TranslationWorkflow.run penv.translateAct
        (OCRWorkflow.run penv.ocrEnv).output.blocks).success = true)
    (h3 : (SiteGenerationWorkflow.run penv.siteAct).success = true) :
    (PDFTranslationWorkflow.run input penv).output.success = true ∧
    (PDFTranslationWorkflow.run input penv).output.error = none ∧
    (PDFTranslationWorkflow.run input penv).finalState.progress.phase = "complete" ∧
    (PDFTranslationWorkflow.run input penv).output.input_path = input.pdf_path ∧
    (PDFTranslationWorkflow.run input penv).output.output_dir = input.output_dir ∧
    (PDFTranslationWorkflow.run input penv).output.ocr_blocks
      = (OCRWorkflow.run penv.ocrEnv).output.blocks.length ∧
    (PDFTranslationWorkflow.run input penv).output.translated_blocks
      = (TranslationWorkflow.run penv.translateAct
          (OCRWorkflow.run penv.ocrEnv).output.blocks).translated_blocks.length ∧
    (PDFTranslationWorkflow.run input penv).output.json_path
      = (SiteGenerationWorkflow.run penv.siteAct).json_path ∧
    (PDFTranslationWorkflow.run input penv).output.html_path
      = (SiteGenerationWorkflow.run penv.siteAct).html_path ∧
    (PDFTranslationWorkflow.run input penv).output.product_url
      = resolvedFinalUrl penv ∧
    (PDFTranslationWorkflow.run input penv).output.product_name
      = (if input.skip_cleanup then (OCRWorkflow.run penv.ocrEnv).output.product_name
         else pyOrStr
           (((CleanupWorkflow.run penv.cleanupEnv
               { json_path := (SiteGenerationWorkflow.run penv.siteAct).json_path
                 product_name := (OCRWorkflow.run penv.ocrEnv).output.product_name
                 product_description :=
                   (OCRWorkflow.run penv.ocrEnv).output.product_description
                 skip_gemini := false }).output.corrected_product_name).getD "")
           (OCRWorkflow.run penv.ocrEnv).output.product_name) ∧
    (input.skip_cleanup = true →
      (PDFTranslationWorkflow.run input penv).finalState.progress.cleanup_progress
        = "Skipped") ∧
    childNames (PDFTranslationWorkflow.run input penv).trace
      = (if input.skip_cleanup then ["ocr", "translation", "site_generation"]
         else ["ocr", "translation", "site_generation", "cleanup"]) := by
  by_cases hskip : input.skip_cleanup
  · by_cases hurl : (OCRWorkflow.run penv.ocrEnv).output.product_url = ""
    · cases hw : penv.waitSignals with
      | nil =>
        simp [PDFTranslationWorkflow.run, h1, h2, h3, hurl, hskip, hw, childNames,
          resolvedFinalUrl, waitForUrl_nil, foldl_provide_url_phase,
          foldl_provide_url_cleanup_progress, foldl_provide_url_user]
      | cons u rest =>
        simp [PDFTranslationWorkflow.run, h1, h2, h3, hurl, hskip, hw, childNames,
          resolvedFinalUrl, waitForUrl_cons, provide_url, foldl_provide_url_phase,
          foldl_provide_url_cleanup_progress]
    · simp [PDFTranslationWorkflow.run, h1, h2, h3, hurl, hskip, childNames,
        resolvedFinalUrl, foldl_provide_url_phase, foldl_provide_url_cleanup_progress]
  · by_cases hurl : (OCRWorkflow.run penv.ocrEnv).output.product_url = ""
    · cases hw : penv.waitSignals with
      | nil =>
        simp [PDFTranslationWorkflow.run, h1, h2, h3, hurl, hskip, hw, childNames,
          resolvedFinalUrl, waitForUrl_nil, foldl_provide_url_phase,
          foldl_provide_url_cleanup_progress, foldl_provide_url_user]
      | cons u rest =>
        simp [PDFTranslationWorkflow.run, h1, h2, h3, hurl, hskip, hw, childNames,
          resolvedFinalUrl, waitForUrl_cons, provide_url, foldl_provide_url_phase,
          foldl_provide_url_cleanup_progress]
    · simp [PDFTranslationWorkflow.run, h1, h2, h3, hurl, hskip, childNames,
        resolvedFinalUrl, foldl_provide_url_phase, foldl_provide_url_cleanup_progress]

/-- The terminal output does not depend on signals delivered after
resumption. -/
theorem parent_postSignals_output (input : PDFTranslationInput) (penv : PipelineEnv)
    (ps : List String) :
    (PDFTranslationWorkflow.run input { penv with postSignals := ps }).output
      = (PDFTranslationWorkflow.run input penv).output := by
  by_cases h1 : (OCRWorkflow.run penv.ocrEnv).output.success
  · by_cases h2 : (TranslationWorkflow.run penv.translateAct
        (OCRWorkflow.run penv.ocrEnv).output.blocks).success
    · by_cases h3 : (SiteGenerationWorkflow.run penv.siteAct).success
      · by_cases hurl : (OCRWorkflow.run penv.ocrEnv).output.product_url = "" <;>
          by_cases hskip : input.skip_cleanup <;>
          simp [PDFTranslationWorkflow.run, h1, h2, h3, hurl, hskip]
      · simp only [Bool.not_eq_true] at h3
        by_cases hurl : (OCRWorkflow.run penv.ocrEnv).output.product_url = "" <;>
          simp [PDFTranslationWorkflow.run, h1, h2, h3, hurl]
    · simp only [Bool.not_eq_true] at h2
      by_cases hurl : (OCRWorkflow.run penv.ocrEnv).output.product_url = "" <;>
        simp [PDFTranslationWorkflow.run, h1, h2, hurl]
  · simp only [Bool.not_eq_true] at h1
    simp [PDFTranslationWorkflow.run, h1]

/-- C3: a failed OCR, Translation, or Site-Generation phase output makes
the job return immediately with `success = false` and an error naming
that phase and its underlying error (no later child is invoked); when all
three succeed, the job returns `success = true` at phase `complete`,
combining the block counts, the site paths, the resolved product URL, and
a product name preferring Cleanup's non-empty corrected name over the
OCR-discovered one. -/
theorem C3_orchestrator_contract (input : PDFTranslationInput) (penv : PipelineEnv) :
    ((OCRWorkflow.run penv.ocrEnv).output.success = false →
      (PDFTranslationWorkflow.run input penv).output.success = false ∧
      (PDFTranslationWorkflow.run input penv).output.error
        = some ("OCR failed: "
            ++ ((OCRWorkflow.run penv.ocrEnv).output.error).getD "None") ∧
      childNames (PDFTranslationWorkflow.run input penv).trace = ["ocr"])
    ∧ ((OCRWorkflow.run penv.ocrEnv).output.success = true →
       (TranslationWorkflow.run penv.translateAct
          (OCRWorkflow.run penv.ocrEnv).output.blocks).success = false →
        (PDFTranslationWorkflow.run input penv).output.success = false ∧
        (PDFTranslationWorkflow.run input penv).output.error
          = some ("Translation failed: "
              ++ ((TranslationWorkflow.run penv.translateAct
                  (OCRWorkflow.run penv.ocrEnv).output.blocks).error).getD "None") ∧
        childNames (PDFTranslationWorkflow.run input penv).trace = ["ocr", "translation"])
    ∧ ((OCRWorkflow.run penv.ocrEnv).output.success = true →
       (TranslationWorkflow.run penv.translateAct
          (OCRWorkflow.run penv.ocrEnv).output.blocks).success = true →
       (SiteGenerationWorkflow.run penv.siteAct).success = false →
        (PDFTranslationWorkflow.run input penv).output.success = false ∧
        (PDFTranslationWorkflow.run input penv).output.error
          = some ("Site generation failed: "
              ++ ((SiteGenerationWorkflow.run penv.siteAct).error).getD "None") ∧
        childNames (PDFTranslationWorkflow.run input penv).trace
          = ["ocr", "translation", "site_generation"])
    ∧ ((OCRWorkflow.run penv.ocrEnv).output.success = true →
       (TranslationWorkflow.run penv.translateAct
          (OCRWorkflow.run penv.ocrEnv).output.blocks).success = true →
       (SiteGenerationWorkflow.run penv.siteAct).success = true →
        (PDFTranslationWorkflow.run input penv).output.success = true ∧
        (PDFTranslationWorkflow.run input penv).output.error = none ∧
        (PDFTranslationWorkflow.run input penv).finalState.progress.phase = "complete" ∧
        (PDFTranslationWorkflow.run input penv).output.ocr_blocks
          = (OCRWorkflow.run penv.ocrEnv).output.blocks.length ∧
        (PDFTranslationWorkflow.run input penv).output.translated_blocks
          = (TranslationWorkflow.run penv.translateAct
              (OCRWorkflow.run penv.ocrEnv).output.blocks).translated_blocks.length ∧
        (PDFTranslationWorkflow.run input penv).output.json_path
          = (SiteGenerationWorkflow.run penv.siteAct).json_path ∧
        (PDFTranslationWorkflow.run input penv).output.html_path
          = (SiteGenerationWorkflow.run penv.siteAct).html_path ∧
        (PDFTranslationWorkflow.run input penv).output.product_url
          = resolvedFinalUrl penv ∧
        (PDFTranslationWorkflow.run input penv).output.product_name
          = (if input.skip_cleanup
             then (OCRWorkflow.run penv.ocrEnv).output.product_name
             else pyOrStr
               (((CleanupWorkflow.run penv.cleanupEnv
                   { json_path := (SiteGenerationWorkflow.run penv.siteAct).json_path
                     product_name := (OCRWorkflow.run penv.ocrEnv).output.product_name
                     product_description :=
                       (OCRWorkflow.run penv.ocrEnv).output.product_description
                     skip_gemini := false }).output.corrected_product_name).getD "")
               (OCRWorkflow.run penv.ocrEnv).output.product_name)) := by
  refine ⟨?_, ?_, ?_, ?_⟩
  · intro h1
    obtain ⟨j1, j2, j3, -⟩ := parent_ocr_fail input penv h1
    exact ⟨j1, j2, by rw [j3]; rfl⟩
  · intro h1 h2
    obtain ⟨j1, j2, -, -, -, -, j7⟩ := parent_translation_fail input penv h1 h2
    exact ⟨j1, j2, j7⟩
  · intro h1 h2 h3
    obtain ⟨j1, j2, -, -, j5⟩ := parent_site_fail input penv h1 h2 h3
    exact ⟨j1, j2, j5⟩
  · intro h1 h2 h3
    obtain ⟨j1, j2, j3, -, -, j6, j7, j8, j9, j10, j11, -, -⟩ :=
      parent_all_success input penv h1 h2 h3
    exact ⟨j1, j2, j3, j6, j7, j8, j9, j10, j11⟩

/-- C3 witness: the sample pipeline with all phases succeeding terminates
successfully at phase `complete`. -/
theorem C3_witness :
    (PDFTranslationWorkflow.run sampleInput samplePipelineEnv).output.success = true ∧
    (PDFTranslationWorkflow.run sampleInput samplePipelineEnv).finalState.progress.phase
      = "complete" := by
  have h := (C3_orchestrator_contract sampleInput samplePipelineEnv).2.2.2
    (by decide) (by decide) (by decide)
  exact ⟨h.1, h.2.2.1⟩

/-- C8 counterexample: a failed OCR output whose payload is not all
zero/empty — the product metadata found before the failure and the page
count survive in the failed output. -/
theorem C8_counterexample :
    (OCRWorkflow.run envSearchOkFail).output.success = false ∧
    (OCRWorkflow.run envSearchOkFail).output.product_name = "CSM DenGasher" ∧
    (OCRWorkflow.run envSearchOkFail).output.product_url
      = "https://tokullectibles.com/p" ∧
    (OCRWorkflow.run envSearchOkFail).output.page_count = 1 ∧
    ¬ ((OCRWorkflow.run envSearchOkFail).output.product_name = "" ∧
       (OCRWorkflow.run envSearchOkFail).output.page_count = 0) := by
  refine ⟨by decide, by decide, by decide, by decide, ?_⟩
  intro h
  rw [show (OCRWorkflow.run envSearchOkFail).output.page_count = 1 from by decide] at h
  simp at h

/-- C8 amended: a failed OCR output has an empty block list (but retains
the page count and the product metadata discovered before the failure);
failed Translation and Site-Generation outputs have all payload fields
zero/empty; and no downstream phase — Cleanup included — is invoked on a
failed upstream output. -/
theorem C8_failed_payload_policy (env : OCREnv)
    (tact : List BlockDict → TranslationResult) (blocks : List BlockDict)
    (sres : SiteActResult) (input : PDFTranslationInput) (penv : PipelineEnv) :
    ((OCRWorkflow.run env).output.success = false →
      (OCRWorkflow.run env).output.blocks = [] ∧
      (OCRWorkflow.run env).output.page_count = env.page_count)
    ∧ ((TranslationWorkflow.run tact blocks).success = false →
        (TranslationWorkflow.run tact blocks).translated_blocks = [])
    ∧ ((SiteGenerationWorkflow.run sres).success = false →
        (SiteGenerationWorkflow.run sres).json_path = "" ∧
        (SiteGenerationWorkflow.run sres).html_path = "" ∧
        (SiteGenerationWorkflow.run sres).page_count = 0 ∧
        (SiteGenerationWorkflow.run sres).block_count = 0)
    ∧ ((OCRWorkflow.run penv.ocrEnv).output.success = false →
        childNames (PDFTranslationWorkflow.run input penv).trace = ["ocr"])
    ∧ ((OCRWorkflow.run penv.ocrEnv).output.success = true →
       (TranslationWorkflow.run penv.translateAct
          (OCRWorkflow.run penv.ocrEnv).output.blocks).success = false →
        childNames (PDFTranslationWorkflow.run input penv).trace = ["ocr", "translation"])
    ∧ ((OCRWorkflow.run penv.ocrEnv).output.success = true →
       (TranslationWorkflow.run penv.translateAct
          (OCRWorkflow.run penv.ocrEnv).output.blocks).success = true →
       (SiteGenerationWorkflow.run penv.siteAct).success = false →
        childNames (PDFTranslationWorkflow.run input penv).trace
          = ["ocr", "translation", "site_generation"]) := by
  refine ⟨?_, ?_, ?_, ?_, ?_, ?_⟩
  · intro hf
    by_cases hemp : (collectBlocks (ocrPageResults env)).1 = []
    · obtain ⟨-, -, h3⟩ := ocr_run_of_empty env hemp
      refine ⟨h3, ?_⟩
      simp only [OCRWorkflow.run]
      split <;> rfl
    · obtain ⟨h1, -, -⟩ := ocr_run_of_nonempty env hemp
      rw [h1] at hf
      simp at hf
  · intro hf
    simp only [TranslationWorkflow.run] at hf ⊢
    by_cases hs : (!(tact blocks).success) = true
    · rw [if_pos hs]
    · rw [if_neg hs] at hf
      simp at hf
  · intro hf
    simp only [SiteGenerationWorkflow.run] at hf ⊢
    by_cases hs : (!sres.success) = true
    · rw [if_pos hs]
      exact ⟨rfl, rfl, rfl, rfl⟩
    · rw [if_neg hs] at hf
      simp at hf
  · intro h1
    obtain ⟨-, -, j3, -⟩ := parent_ocr_fail input penv h1
    rw [j3]
    rfl
  · intro h1 h2
    exact (parent_translation_fail input penv h1 h2).2.2.2.2.2.2
  · intro h1 h2 h3
    exact (parent_site_fail input penv h1 h2 h3).2.2.2.2

/-- C8 witness: with translation failing on the sample OCR blocks, the
failed translation output is empty and no site or cleanup child is
invoked. -/
theorem C8_witness :
    (TranslationWorkflow.run sampleTranslateFail
        (OCRWorkflow.run envOkPages).output.blocks).translated_blocks = [] ∧
    childNames (PDFTranslationWorkflow.run sampleInput
        { samplePipelineEnv with translateAct := sampleTranslateFail }).trace
      = ["ocr", "translation"] := by
  have h := C8_failed_payload_policy envOkPages sampleTranslateFail
    (OCRWorkflow.run envOkPages).output.blocks sampleSiteOk sampleInput
    { samplePipelineEnv with translateAct := sampleTranslateFail }
  exact ⟨h.2.1 (by decide), h.2.2.2.2.1 (by decide) (by decide)⟩

/-- C9: with the skip-cleanup flag set, the cleanup child is never
invoked; when the first three phases succeed the cleanup progress string
reads `"Skipped"`, the final product name is the OCR-discovered one, and
the job still completes successfully at phase `complete`. -/
theorem C9_skip_cleanup (input : PDFTranslationInput) (penv : PipelineEnv)
    (hskip : input.skip_cleanup = true) :
    "cleanup" ∉ childNames (PDFTranslationWorkflow.run input penv).trace
    ∧ ((OCRWorkflow.run penv.ocrEnv).output.success = true →
       (TranslationWorkflow.run penv.translateAct
          (OCRWorkflow.run penv.ocrEnv).output.blocks).success = true →
       (SiteGenerationWorkflow.run penv.siteAct).success = true →
        (PDFTranslationWorkflow.run input penv).finalState.progress.cleanup_progress
          = "Skipped" ∧
        (PDFTranslationWorkflow.run input penv).output.product_name
          = (OCRWorkflow.run penv.ocrEnv).output.product_name ∧
        (PDFTranslationWorkflow.run input penv).output.success = true ∧
        (PDFTranslationWorkflow.run input penv).finalState.progress.phase
          = "complete") := by
  constructor
  · by_cases h1 : (OCRWorkflow.run penv.ocrEnv).output.success
    · by_cases h2 : (TranslationWorkflow.run penv.translateAct
          (OCRWorkflow.run penv.ocrEnv).output.blocks).success
      · by_cases h3 : (SiteGenerationWorkflow.run penv.siteAct).success
        · obtain ⟨-, -, -, -, -, -, -, -, -, -, -, -, j13⟩ :=
            parent_all_success input penv h1 h2 h3
          rw [j13, if_pos hskip]
          simp
        · simp only [Bool.not_eq_true] at h3
          rw [(parent_site_fail input penv h1 h2 h3).2.2.2.2]
          simp
      · simp only [Bool.not_eq_true] at h2
        rw [(parent_translation_fail input penv h1 h2).2.2.2.2.2.2]
        simp
    · simp only [Bool.not_eq_true] at h1
      obtain ⟨-, -, j3, -⟩ := parent_ocr_fail input penv h1
      rw [j3]
      simp [childNames]
  · intro h1 h2 h3
    obtain ⟨j1, -, j3, -, -, -, -, -, -, -, j11, j12, -⟩ :=
      parent_all_success input penv h1 h2 h3
    refine ⟨j12 hskip, ?_, j1, j3⟩
    rw [j11, if_pos hskip]

/-- C9 witness: with the flag set on the sample pipeline, cleanup is not
invoked and the job completes with the `"Skipped"` progress string. -/
theorem C9_witness :
    "cleanup" ∉ childNames (PDFTranslationWorkflow.run
        { sampleInput with skip_cleanup := true } samplePipelineEnv).trace ∧
    (PDFTranslationWorkflow.run { sampleInput with skip_cleanup := true }
        samplePipelineEnv).finalState.progress.cleanup_progress = "Skipped" := by
  have h := C9_skip_cleanup { sampleInput with skip_cleanup := true }
    samplePipelineEnv (by decide)
  exact ⟨h.1, (h.2 (by decide) (by decide) (by decide)).1⟩

/-- C5: when the product lookup resolved no URL (and no signal preceded
the wait point), the run suspends — with the waiting flag set, visible in
the wait-entry snapshot — after OCR and before Translation; a signal with
any string resumes it by signal with that string as the resolved URL; no
signal within the window resumes it by timeout with the empty URL;
exactly one resumption occurs; and signals delivered after resumption do
not change the output. -/
theorem C5_suspension (input : PDFTranslationInput) (penv : PipelineEnv)
    (hpre : penv.preSignals = [])
    (hocr : (OCRWorkflow.run penv.ocrEnv).output.success = true)
    (hurl : (OCRWorkflow.run penv.ocrEnv).output.product_url = "") :
    ((PDFTranslationWorkflow.run input penv).trace.map stepTag).take 4
        = ["ocr", "wait", "resume", "translation"]
    ∧ (PDFTranslationWorkflow.run input penv).trace.filterMap
        (fun s => match s with
          | PipeStep.enterWait st => some st.progress.waiting_for_url
          | _ => none) = [true]
    ∧ ((PDFTranslationWorkflow.run input penv).trace.filterMap resumeKindOf).length = 1
    ∧ (penv.waitSignals = [] →
        (PDFTranslationWorkflow.run input penv).trace.filterMap resumeKindOf
            = [ResumeKind.byTimeout]
          ∧ resolvedFinalUrl penv = "")
    ∧ (∀ u rest2, penv.waitSignals = u :: rest2 →
        (PDFTranslationWorkflow.run input penv).trace.filterMap resumeKindOf
            = [ResumeKind.bySignal]
          ∧ resolvedFinalUrl penv = u)
    ∧ ((TranslationWorkflow.run penv.translateAct
          (OCRWorkflow.run penv.ocrEnv).output.blocks).success = true →
       (SiteGenerationWorkflow.run penv.siteAct).success = true →
        (PDFTranslationWorkflow.run input penv).output.product_url
          = resolvedFinalUrl penv)
    ∧ (∀ ps, (PDFTranslationWorkflow.run input { penv with postSignals := ps }).output
        = (PDFTranslationWorkflow.run input penv).output) := by
  have key : ((PDFTranslationWorkflow.run input penv).trace.map stepTag).take 4
        = ["ocr", "wait", "resume", "translation"]
      ∧ (PDFTranslationWorkflow.run input penv).trace.filterMap
          (fun s => match s with
            | PipeStep.enterWait st => some st.progress.waiting_for_url
            | _ => none) = [true]
      ∧ (PDFTranslationWorkflow.run input penv).trace.filterMap resumeKindOf
          = [(waitForUrl penv.waitSignals
              { progress := { phase := "ocr" }, user_provided_url := "",
                waiting_for_url := true }).2] := by
    by_cases h2 : (TranslationWorkflow.run penv.translateAct
        (OCRWorkflow.run penv.ocrEnv).output.blocks).success
    · by_cases h3 : (SiteGenerationWorkflow.run penv.siteAct).success
      · by_cases hskip : input.skip_cleanup <;> cases hw : penv.waitSignals <;>
          simp [PDFTranslationWorkflow.run, hocr, hurl, hpre, h2, h3, hskip, hw,
            stepTag, resumeKindOf, waitForUrl_nil, waitForUrl_cons, provide_url]
      · simp only [Bool.not_eq_true] at h3
        cases hw : penv.waitSignals <;>
          simp [PDFTranslationWorkflow.run, hocr, hurl, hpre, h2, h3, hw,
            stepTag, resumeKindOf, waitForUrl_nil, waitForUrl_cons, provide_url]
    · simp only [Bool.not_eq_true] at h2
      cases hw : penv.waitSignals <;>
        simp [PDFTranslationWorkflow.run, hocr, hurl, hpre, h2, hw,
          stepTag, resumeKindOf, waitForUrl_nil, waitForUrl_cons, provide_url]
  refine ⟨key.1, key.2.1, ?_, ?_, ?_, ?_,
    fun ps => parent_postSignals_output input penv ps⟩
  · rw [key.2.2]
    rfl
  · intro hw
    refine ⟨?_, by simp [resolvedFinalUrl, hurl, hw, hpre]⟩
    rw [key.2.2, hw, waitForUrl_nil]
  · intro u rest2 hw
    refine ⟨?_, by simp [resolvedFinalUrl, hurl, hw]⟩
    rw [key.2.2, hw, waitForUrl_cons]
  · intro h2 h3
    exact (parent_all_success input penv hocr h2 h3).2.2.2.2.2.2.2.2.2.1

/-- C5 witness: the sample pipeline (no product URL, one wait signal)
resumes by signal and resolves the signalled URL. -/
theorem C5_witness :
    (PDFTranslationWorkflow.run sampleInput samplePipelineEnv).trace.filterMap
        resumeKindOf = [ResumeKind.bySignal] ∧
    resolvedFinalUrl samplePipelineEnv = "https://user.example/p" := by
  have h := C5_suspension sampleInput samplePipelineEnv (by decide) (by decide)
    (by decide)
  exact h.2.2.2.2.1 "https://user.example/p" [] rfl

/-- C6: evaluation at the failing input.  A `provide_url` signal handled
while the OCR child is still awaited (before the wait point) stores the
URL, but the orchestrator then overwrites the waiting flag and enters the
wait anyway: the wait-entry snapshot already holds the signalled URL, the
single resumption is by timeout — not by the earlier signal — and only
then is the stored URL applied. -/
theorem C6_early_signal_race :
    (PDFTranslationWorkflow.run sampleInput earlySignalEnv).trace.filterMap
        (fun s => match s with
          | PipeStep.enterWait st => some st.user_provided_url
          | _ => none) = ["https://example.com/p"]
    ∧ (PDFTranslationWorkflow.run sampleInput earlySignalEnv).trace.filterMap
        resumeKindOf = [ResumeKind.byTimeout]
    ∧ (PDFTranslationWorkflow.run sampleInput earlySignalEnv).output.product_url
      = "https://example.com/p" := by
  refine ⟨by decide, by decide, by decide⟩
